import Mathlib

/-!
Shallow embedding of the bzt-influx reporting extension (src/bzt-influx.py).

Numeric modelling: Python floats (response times in seconds, the retry delay,
clock values) are modelled as rationals; Python `int(x)` is truncation toward
zero (`pyInt`).  Machine ints never overflow in Python, so `Nat`/`Int` are
exact.  The only place a Python float string reaches the wire whose exact
decimal rendering no claim depends on is the `bytesavg` field; `floatRepr`
renders it exactly for integral values and keeps the rational otherwise.

The HTTP transport (`requests.post`) is modelled as an oracle
`tr : Nat -> PostOutcome` giving the outcome of the n-th POST that reaches the
network layer.  `PostOutcome.connectionError` stands for
`requests.exceptions.ConnectionError` and its subclasses (which include
`ConnectTimeout` and requests-level `SSLError`) - the only exception class the
source catches (lines 159, 168).  `PostOutcome.raiseOther s` stands for any
other exception raised by the POST (e.g. `ReadTimeout`, which subclasses
`Timeout`, not `ConnectionError`).  Calling `requests.post` with a `None` URL
raises `MissingSchema` before any network I/O, so it consumes no oracle entry.
An uncaught Python exception is an `Except.error`.
-/

namespace BztInflux

/-- One entry of `KPISet.ERRORS`: `{msg, rc, cnt}`. -/
structure ErrorRec where
  msg : String
  rc : String
  cnt : Nat
  deriving DecidableEq

/-- The fields of a `KPISet` that `__get_transaction_strings` reads.  Response
times and latency are seconds (Python floats, modelled as rationals). -/
structure KPISetRec where
  sample_count : Nat
  failures : Nat
  avg_resp_time : ℚ
  stdev_resp_time : ℚ
  avg_latency : ℚ
  percentiles : List (String × ℚ)
  concurrency : Int
  byte_count : Nat
  errors : List ErrorRec
  deriving DecidableEq

/-- One `DataPoint`: `DataPoint.TIMESTAMP` (seconds) and `DataPoint.CURRENT`,
a label-indexed mapping of `KPISet`s, modelled as an association list in
iteration order. -/
structure DataPointRec where
  ts : Int
  current : List (String × KPISetRec)
  deriving DecidableEq

/-- Python `int(x)` on a float/rational: truncation toward zero. -/
def pyInt (q : ℚ) : Int := Int.tdiv q.num (q.den : Int)

/-- Python dict lookup `item[KPISet.PERCENTILES][key]` guarded by
`key in item[KPISet.PERCENTILES]`. -/
def pctGet (ps : List (String × ℚ)) (key : String) : Option ℚ :=
  (ps.find? (fun p => p.1 == key)).map (fun p => p.2)

/-- `InfluxDatapointSerializer.multi`, the reporting multiplier (line 180). -/
def multi : ℚ := 1000

/-- The `statut` tag: `"ko"` when `item[KPISet.FAILURES] > 0`, else `"ok"`
(lines 205-209). -/
def txnStatus (item : KPISetRec) : String :=
  if item.failures > 0 then "ko" else "ok"

/-- The fields of the per-transaction summary line built at lines 211-227, in
source order.  `min`, `max` and the percentile fields hold the integer that is
rendered (`0` when the percentile key is absent, matching `str("0") = "0"`). -/
@[ext]
structure SummaryLine where
  statut : String
  transaction : String
  count : Nat
  avg : Int
  min : Int
  max : Int
  pct90 : Int
  pct95 : Int
  pct99 : Int
  maxAT : Int
  countError : Nat
  txnsum : Int
  txnstddev : Int
  ltavg : Int
  bytessum : Nat
  bytesavg : ℚ
  time_stamp : String
  deriving DecidableEq

/-- Rendering of the Python float string for `bytesavg`.  Exact for integral
values (`str(200.0) = "200.0"`); non-integral quotients keep the rational. -/
def floatRepr (q : ℚ) : String :=
  if q.den = 1 then toString q.num ++ ".0"
  else toString q.num ++ "/" ++ toString q.den

/-- The summary-line computation of lines 211-227.  Python raises
`ZeroDivisionError` on `item[KPISet.BYTE_COUNT] / float(item[KPISet.SAMPLE_COUNT])`
when the sample count is zero, aborting the whole string construction. -/
def mkSummaryLine (item : KPISetRec) (time_stamp label : String) :
    Except String SummaryLine :=
  if item.sample_count = 0 then
    Except.error "ZeroDivisionError"
  else
    Except.ok
      { statut := txnStatus item
        transaction := label
        count := item.sample_count
        avg := pyInt (multi * item.avg_resp_time)
        min := match pctGet item.percentiles "0.0" with
          | some v => pyInt (multi * v)
          | none => 0
        max := match pctGet item.percentiles "100.0" with
          | some v => pyInt (multi * v)
          | none => 0
        pct90 := match pctGet item.percentiles "90.0" with
          | some v => pyInt v
          | none => 0
        pct95 := match pctGet item.percentiles "95.0" with
          | some v => pyInt v
          | none => 0
        pct99 := match pctGet item.percentiles "99.0" with
          | some v => pyInt v
          | none => 0
        maxAT := item.concurrency
        countError := item.failures
        txnsum := pyInt (multi * item.avg_resp_time) * (item.sample_count : Int)
        txnstddev := pyInt (multi * item.stdev_resp_time)
        ltavg := pyInt (multi * item.avg_latency)
        bytessum := item.byte_count
        bytesavg := (item.byte_count : ℚ) / (item.sample_count : ℚ)
        time_stamp := time_stamp }

/-- Concatenation of the summary line into its wire string (lines 211-227). -/
def renderSummary (s : SummaryLine) : String :=
  "statut=" ++ s.statut ++
  ",transaction=" ++ s.transaction ++
  " count=" ++ toString s.count ++
  ",avg=" ++ toString s.avg ++
  ",min=" ++ toString s.min ++
  ",max=" ++ toString s.max ++
  ",pct90.0=" ++ toString s.pct90 ++
  ",pct95.0=" ++ toString s.pct95 ++
  ",pct99.0=" ++ toString s.pct99 ++
  ",maxAT=" ++ toString s.maxAT ++
  ",countError=" ++ toString s.countError ++
  ",txnsum=" ++ toString s.txnsum ++
  ",txnstddev=" ++ toString s.txnstddev ++
  ",ltavg=" ++ toString s.ltavg ++
  ",bytessum=" ++ toString s.bytessum ++
  ",bytesavg=" ++ floatRepr s.bytesavg ++
  " " ++ s.time_stamp

/-- The internal-concurrency line (lines 231-237). -/
def internalLine (item : KPISetRec) (time_stamp : String) : String :=
  "transaction=internal" ++
  " minAT=" ++ toString item.concurrency ++
  ",maxAT=" ++ toString item.concurrency ++
  ",meanAT=" ++ toString item.concurrency ++
  ",startedT=" ++ toString item.concurrency ++
  ",endedT=0" ++
  " " ++ time_stamp

/-- One error line (lines 243-248). -/
def errorLine (label time_stamp : String) (e : ErrorRec) : String :=
  "transaction=" ++ label ++
  ",responseMessage=" ++ e.msg ++
  ",responseCode=" ++ e.rc ++
  " count=" ++ toString e.cnt ++
  " " ++ time_stamp

/-- `InfluxDatapointSerializer.__get_transaction_strings` (lines 198-251):
summary line, then internal line, then one line per error entry in order. -/
def getTransactionStrings (item : KPISetRec) (time_stamp label : String) :
    Except String (List String) :=
  match mkSummaryLine item time_stamp label with
  | Except.error e => Except.error e
  | Except.ok s =>
    Except.ok ([renderSummary s, internalLine item time_stamp] ++
      item.errors.map (errorLine label time_stamp))

/-- The inner loop of `get_kpi_body` (lines 191-193): entries whose label is
falsy (the empty string) are skipped. -/
def currentStrings (time_stamp : String) :
    List (String × KPISetRec) → Except String (List String)
  | [] => Except.ok []
  | p :: rest =>
    if p.1 = "" then currentStrings time_stamp rest
    else
      match getTransactionStrings p.2 time_stamp p.1 with
      | Except.error e => Except.error e
      | Except.ok s =>
        match currentStrings time_stamp rest with
        | Except.error e => Except.error e
        | Except.ok r => Except.ok (s ++ r)

/-- The outer loop of `get_kpi_body` over the data buffer (lines 189-193);
`time_stamp = str(dpoint[DataPoint.TIMESTAMP] * 1000)`. -/
def bufferStrings : List DataPointRec → Except String (List String)
  | [] => Except.ok []
  | dp :: rest =>
    match currentStrings (toString (dp.ts * 1000)) dp.current with
    | Except.error e => Except.error e
    | Except.ok s =>
      match bufferStrings rest with
      | Except.error e => Except.error e
      | Except.ok r => Except.ok (s ++ r)

/-- `InfluxDatapointSerializer.get_kpi_body` (lines 182-195). -/
def getKpiBody (data_buffer : List DataPointRec) : Except String (List String) :=
  if data_buffer = [] then Except.ok [] else bufferStrings data_buffer

/-! ### Uploader -/

/-- Outcome of one `requests.post` call that reaches the network layer. -/
inductive PostOutcome
  | status (code : Int)
  | connectionError
  | raiseOther (name : String)
  deriving DecidableEq

/-- A transport oracle: the outcome of the n-th POST of the run. -/
def Transport := Nat → PostOutcome

/-- The configuration fields `prepare` reads (lines 57-66).  `none` models
Python `None`, which `BetterDict.get` returns for a missing option. -/
structure InfluxConfig where
  influx_url : Option String
  influx_application : Option String
  influx_measurement : Option String
  send_interval : ℚ
  resend_timeout : ℚ
  deriving DecidableEq

/-- The raw parameters block consumed by `prepare`. -/
structure ReporterParams where
  application : Option String
  measurement : Option String
  influx_url_param : Option String
  send_interval_param : Option ℚ
  resend_timeout_param : Option ℚ
  deriving DecidableEq

/-- `InfluxUploader.prepare` (lines 57-66): copies parameters into fields,
applying the defaults `send_interval = 10` and `resend_timeout = 2.0`
(the latter only replaced when the option is present/truthy).  It performs no
validation and never raises for a missing option. -/
def prepare (p : ReporterParams) : InfluxConfig :=
  { influx_url := p.influx_url_param
    influx_application := p.application
    influx_measurement := p.measurement
    send_interval := match p.send_interval_param with
      | some v => v
      | none => 10
    resend_timeout := match p.resend_timeout_param with
      | some v => v
      | none => 2 }

/-- Observable effects of one `__send_kpi_data` call: the payloads of the POST
attempts that reached the network, the `time.sleep` durations, whether the
retry warning and the final dropped-datapoints error were logged, and whether
the call returned normally (`ok`) or let an exception escape (`error`). -/
structure SendResult where
  attempts : List String
  sleeps : List ℚ
  warned : Bool
  droppedLogged : Bool
  outcome : Except String Unit

/-- A `SendResult` for a call that raised before reaching the network. -/
def errResult (e : String) : SendResult :=
  { attempts := [], sleeps := [], warned := false, droppedLogged := false
    outcome := Except.error e }

/-- `InfluxUploader.__send_kpi_data` (lines 146-170).  Only
`requests.exceptions.ConnectionError` is caught: on the first such fault it
logs a warning, sleeps `resend_timeout` seconds and retries the same payload
once; a second such fault logs the dropped-datapoints error and returns
normally.  Any other exception (including the `MissingSchema` raised by
`requests.post` on a `None` URL, before any network I/O) escapes.  Returns the
effects and the next transport index. -/
def sendKpiData (cfg : InfluxConfig) (tr : Transport) (n0 : Nat)
    (data : String) : SendResult × Nat :=
  match cfg.influx_url with
  | none => (errResult "MissingSchema", n0)
  | some _ =>
    match tr n0 with
    | PostOutcome.status _ =>
      ({ attempts := [data], sleeps := [], warned := false,
         droppedLogged := false, outcome := Except.ok () }, n0 + 1)
    | PostOutcome.raiseOther e =>
      ({ attempts := [data], sleeps := [], warned := false,
         droppedLogged := false, outcome := Except.error e }, n0 + 1)
    | PostOutcome.connectionError =>
      match tr (n0 + 1) with
      | PostOutcome.status _ =>
        ({ attempts := [data, data], sleeps := [cfg.resend_timeout],
           warned := true, droppedLogged := false,
           outcome := Except.ok () }, n0 + 2)
      | PostOutcome.raiseOther e =>
        ({ attempts := [data, data], sleeps := [cfg.resend_timeout],
           warned := true, droppedLogged := false,
           outcome := Except.error e }, n0 + 2)
      | PostOutcome.connectionError =>
        ({ attempts := [data, data], sleeps := [cfg.resend_timeout],
           warned := true, droppedLogged := true,
           outcome := Except.ok () }, n0 + 2)

/-- The request-body loop of `__send_data` (lines 117-119): each serialized
item is prefixed with `measurement + ",application=" + application + ","` and
newline-terminated.  When the list is non-empty and either option is `None`
the string concatenation raises `TypeError`; with an empty list the loop never
runs and the body is the empty string. -/
def buildRequestBody (measurement application : Option String) :
    List String → Except String String
  | [] => Except.ok ""
  | item :: rest =>
    match measurement, application with
    | some m, some a =>
      (buildRequestBody (some m) (some a) rest).map
        (fun r => m ++ ",application=" ++ a ++ "," ++ item ++ "\n" ++ r)
    | _, _ => Except.error "TypeError"

/-- `InfluxUploader.__send_data` (lines 110-120): serialize, build the request
body, then `__send_kpi_data`.  An exception from serialization or string
building escapes before any POST. -/
def sendData (cfg : InfluxConfig) (tr : Transport) (n0 : Nat)
    (data : List DataPointRec) : SendResult × Nat :=
  match getKpiBody data with
  | Except.error e => (errResult e, n0)
  | Except.ok lines =>
    match buildRequestBody cfg.influx_measurement cfg.influx_application lines with
    | Except.error e => (errResult e, n0)
    | Except.ok body => sendKpiData cfg tr n0 body

/-- The mutable state of `InfluxUploader` that `check`/`post_process` touch. -/
structure UploaderState where
  kpi_buffer : List DataPointRec
  last_dispatch : ℚ
  send_data : Bool
  deriving DecidableEq

/-- `InfluxUploader.check` (lines 96-107), at clock value `now`.  If
`last_dispatch < now - send_interval`, `last_dispatch` is set to `now`
unconditionally; the buffer is sent and then cleared only when additionally
`send_data` holds and the buffer is non-empty.  If `__send_data` raises, the
clearing assignment is skipped and the exception escapes `check` (there is no
try/except).  Returns (new state, next transport index, the send effects when
a send was started). -/
def check (cfg : InfluxConfig) (tr : Transport) (n0 : Nat)
    (st : UploaderState) (now : ℚ) : UploaderState × Nat × Option SendResult :=
  if st.last_dispatch < now - cfg.send_interval then
    if st.send_data ∧ st.kpi_buffer ≠ [] then
      match (sendData cfg tr n0 st.kpi_buffer).1.outcome with
      | Except.ok _ =>
        ({ st with last_dispatch := now, kpi_buffer := [] },
          (sendData cfg tr n0 st.kpi_buffer).2,
          some (sendData cfg tr n0 st.kpi_buffer).1)
      | Except.error _ =>
        ({ st with last_dispatch := now },
          (sendData cfg tr n0 st.kpi_buffer).2,
          some (sendData cfg tr n0 st.kpi_buffer).1)
    else
      ({ st with last_dispatch := now }, n0, none)
  else
    (st, n0, none)

/-- `InfluxUploader.post_process` (lines 82-94): sends the buffer regardless
of its emptiness or of the flush interval; every exception is caught and
logged (the buffer-clearing assignment is skipped when the send raised). -/
def post_process (cfg : InfluxConfig) (tr : Transport) (n0 : Nat)
    (st : UploaderState) : UploaderState × Nat × Option SendResult :=
  if st.send_data then
    match (sendData cfg tr n0 st.kpi_buffer).1.outcome with
    | Except.ok _ =>
      ({ st with kpi_buffer := [] }, (sendData cfg tr n0 st.kpi_buffer).2,
        some (sendData cfg tr n0 st.kpi_buffer).1)
    | Except.error _ =>
      (st, (sendData cfg tr n0 st.kpi_buffer).2,
        some (sendData cfg tr n0 st.kpi_buffer).1)
  else
    (st, n0, none)

/-- The start marker of `startup` (line 74), with the millisecond clock value
`int(round(time.time() * 1000))` passed in. -/
def startupLine (app : String) (now_ms : Int) : String :=
  "events,application=" ++ app ++ ",title=ApacheJMeter text=\"TestTitle started\" "
    ++ toString now_ms

/-- The end marker of `shutdown` (line 80). -/
def shutdownLine (app : String) (now_ms : Int) : String :=
  "events,application=" ++ app ++ ",title=ApacheJMeter text=\"TestTitle ended\" "
    ++ toString now_ms

/-- `InfluxUploader.startup` (lines 69-74): builds the start marker and sends
it through `__send_kpi_data`.  With `influx_application = None` the string
concatenation raises `TypeError` before any network activity. -/
def startup (cfg : InfluxConfig) (tr : Transport) (n0 : Nat)
    (now_ms : Int) : SendResult × Nat :=
  match cfg.influx_application with
  | none => (errResult "TypeError", n0)
  | some app => sendKpiData cfg tr n0 (startupLine app now_ms)

/-- `InfluxUploader.shutdown` (lines 76-80). -/
def shutdown (cfg : InfluxConfig) (tr : Transport) (n0 : Nat)
    (now_ms : Int) : SendResult × Nat :=
  match cfg.influx_application with
  | none => (errResult "TypeError", n0)
  | some app => sendKpiData cfg tr n0 (shutdownLine app now_ms)

/-- `InfluxUploader.NETWORK_PROBLEMS` (line 144): the exception classes the
module declares as network problems.  The constant is never referenced by the
except clauses, which catch only `ConnectionError`. -/
def NETWORK_PROBLEMS : List String :=
  ["IOError", "URLError", "SSLError", "ReadTimeout", "TaurusNetworkError"]

/-! ### Concrete fixtures used by witnesses and counterexamples -/

/-- A fully-populated configuration. -/
def cfg1 : InfluxConfig :=
  { influx_url := some "http://localhost:8086/write?db=taurus"
    influx_application := some "influx_testing"
    influx_measurement := some "jmeter"
    send_interval := 10
    resend_timeout := 2 }

/-- A transport whose every POST is accepted with status 204. -/
def trOk : Transport := fun _ => PostOutcome.status 204

/-- A transport whose every POST raises `ConnectionError`. -/
def trConnFail : Transport := fun _ => PostOutcome.connectionError

/-- A transport whose every POST raises `ReadTimeout`. -/
def trReadTimeout : Transport := fun _ => PostOutcome.raiseOther "ReadTimeout"

/-- The spec's scenario record: 5 samples, 0 failures, avg 0.2 s,
percentiles 90.0 ↦ 0.3 and 100.0 ↦ 0.5, concurrency 3, 1000 bytes. -/
def k1 : KPISetRec :=
  { sample_count := 5, failures := 0, avg_resp_time := 1/5
    stdev_resp_time := 0, avg_latency := 0
    percentiles := [("90.0", 3/10), ("100.0", 1/2)]
    concurrency := 3, byte_count := 1000, errors := [] }

/-- A data point holding `k1` under label `Login`. -/
def dp1 : DataPointRec := { ts := 1000, current := [("Login", k1)] }

/-- A record with `sampleCount = 0` (the division-by-zero case). -/
def k0 : KPISetRec :=
  { sample_count := 0, failures := 0, avg_resp_time := 0
    stdev_resp_time := 0, avg_latency := 0, percentiles := []
    concurrency := 1, byte_count := 100, errors := [] }

/-- A failing record: 3 samples, 2 failures. -/
def item9 : KPISetRec :=
  { sample_count := 3, failures := 2, avg_resp_time := 0
    stdev_resp_time := 0, avg_latency := 0, percentiles := []
    concurrency := 0, byte_count := 0, errors := [] }

/-- The summary line `mkSummaryLine item9 "0" "L"` evaluates to. -/
def s9 : SummaryLine :=
  { statut := "ko", transaction := "L", count := 3, avg := 0, min := 0
    max := 0, pct90 := 0, pct95 := 0, pct99 := 0, maxAT := 0, countError := 2
    txnsum := 0, txnstddev := 0, ltavg := 0, bytessum := 0, bytesavg := 0
    time_stamp := "0" }

/-- The spec's scaling-asymmetry record: avg 0.5021 s, percentile
95.0 ↦ 0.502 s, percentile 100.0 ↦ 0.5 s. -/
def item7 : KPISetRec :=
  { sample_count := 5, failures := 0, avg_resp_time := 5021/10000
    stdev_resp_time := 0, avg_latency := 0
    percentiles := [("95.0", 251/500), ("100.0", 1/2)]
    concurrency := 3, byte_count := 1000, errors := [] }

/-- The summary line `mkSummaryLine item7 "1000" "Login"` evaluates to. -/
def s7 : SummaryLine :=
  { statut := "ok", transaction := "Login", count := 5, avg := 502, min := 0
    max := 500, pct90 := 0, pct95 := 0, pct99 := 0, maxAT := 3, countError := 0
    txnsum := 2510, txnstddev := 0, ltavg := 0, bytessum := 1000
    bytesavg := 200, time_stamp := "1000" }

/-- `cfg1` with the required `measurement` option missing. -/
def cfgNoMeas : InfluxConfig := { cfg1 with influx_measurement := none }

/-- `cfg1` with the required `application` option missing. -/
def cfgNoApp : InfluxConfig := { cfg1 with influx_application := none }

/-- `cfg1` with the required `influx-url` option missing. -/
def cfgNoUrl : InfluxConfig := { cfg1 with influx_url := none }

/-! ### Claims about the serializer -/

/-- On non-negative rationals, Python truncation coincides with the floor. -/
lemma pyInt_nonneg (q : ℚ) (h : 0 ≤ q) : pyInt q = ⌊q⌋ := by
  unfold pyInt
  rw [Int.tdiv_eq_ediv (by exact_mod_cast Rat.num_nonneg.mpr h) (by positivity),
    Rat.floor_def]

/-- Concrete evaluation of the serializer on `item9`. -/
lemma mkSummaryLine_item9 : mkSummaryLine item9 "0" "L" = Except.ok s9 := by
  unfold mkSummaryLine
  rw [if_neg (by decide)]
  congr 1
  apply SummaryLine.ext
  · rfl
  · rfl
  · rfl
  · show pyInt ((1000 : ℚ) * 0) = 0
    rw [pyInt_nonneg _ (by norm_num)]; norm_num
  · rfl
  · rfl
  · rfl
  · rfl
  · rfl
  · rfl
  · rfl
  · show pyInt ((1000 : ℚ) * 0) * ((3 : ℕ) : ℤ) = 0
    rw [pyInt_nonneg _ (by norm_num)]; norm_num
  · show pyInt ((1000 : ℚ) * 0) = 0
    rw [pyInt_nonneg _ (by norm_num)]; norm_num
  · show pyInt ((1000 : ℚ) * 0) = 0
    rw [pyInt_nonneg _ (by norm_num)]; norm_num
  · rfl
  · show ((0 : ℕ) : ℚ) / ((3 : ℕ) : ℚ) = 0
    norm_num
  · rfl

/-- Concrete evaluation of the serializer on `item7`. -/
lemma mkSummaryLine_item7 : mkSummaryLine item7 "1000" "Login" = Except.ok s7 := by
  unfold mkSummaryLine
  rw [if_neg (by decide)]
  congr 1
  apply SummaryLine.ext
  · rfl
  · rfl
  · rfl
  · show pyInt ((1000 : ℚ) * (5021/10000)) = 502
    rw [pyInt_nonneg _ (by norm_num)]; norm_num
  · rfl
  · show pyInt ((1000 : ℚ) * (1/2)) = 500
    rw [pyInt_nonneg _ (by norm_num)]; norm_num
  · rfl
  · show pyInt ((251 : ℚ)/500) = 0
    rw [pyInt_nonneg _ (by norm_num)]; norm_num
  · rfl
  · rfl
  · rfl
  · show pyInt ((1000 : ℚ) * (5021/10000)) * ((5 : ℕ) : ℤ) = 2510
    rw [pyInt_nonneg _ (by norm_num)]; norm_num
  · show pyInt ((1000 : ℚ) * 0) = 0
    rw [pyInt_nonneg _ (by norm_num)]; norm_num
  · show pyInt ((1000 : ℚ) * 0) = 0
    rw [pyInt_nonneg _ (by norm_num)]; norm_num
  · rfl
  · show ((1000 : ℕ) : ℚ) / ((5 : ℕ) : ℚ) = 200
    norm_num
  · rfl

/-- C1: the spec requires `sampleCount = 0 ⇒ bytesavg = 0` with no division
fault, but the source computes `byteCount / float(sampleCount)` unguarded
(line 226): serializing a record with `sampleCount = 0` raises
`ZeroDivisionError` and produces no summary line, and the fault propagates
out of `get_kpi_body`. -/
theorem zero_sample_count_division_fault :
    getTransactionStrings k0 "1000" "Login" = Except.error "ZeroDivisionError" ∧
    getKpiBody [{ ts := 1, current := [("Login", k0)] }] =
      Except.error "ZeroDivisionError" :=
  ⟨rfl, rfl⟩

/-- C9: for every successfully serialized record, the summary line's status
tag is `"ko"` iff `failureCount > 0` and `"ok"` iff `failureCount = 0`. -/
theorem status_tag_iff_failures (item : KPISetRec) (ts label : String)
    (s : SummaryLine) (h : mkSummaryLine item ts label = Except.ok s) :
    (s.statut = "ko" ↔ 0 < item.failures) ∧
    (s.statut = "ok" ↔ item.failures = 0) := by
  unfold mkSummaryLine at h
  split at h
  · exact absurd h (by simp)
  · simp only [Except.ok.injEq] at h
    subst h
    rcases Nat.eq_zero_or_pos item.failures with hf | hf
    · simp [txnStatus, hf]
    · simp only [txnStatus]
      rw [if_pos hf]
      refine ⟨⟨fun _ => hf, fun _ => rfl⟩, ⟨fun hko => ?_, fun h0 => ?_⟩⟩
      · exact absurd hko (by decide)
      · omega

/-- Witness for C9 at a concrete failing record. -/
theorem status_tag_iff_failures_witness :
    s9.statut = "ko" ∧ 0 < item9.failures :=
  ⟨((status_tag_iff_failures item9 "0" "L" s9 mkSummaryLine_item9).1).2
    (by decide), by decide⟩

/-- C7: for every successfully serialized record, the fields avg, min, max,
txnstddev and ltavg are `int(1000 * seconds)` (with min/max from percentiles
"0.0"/"100.0", rendered 0 when absent), txnsum is that scaled average times
the sample count, and pct90.0/pct95.0/pct99.0 are `int(seconds)` unscaled
(0 when absent). -/
theorem summary_scaling_fields (item : KPISetRec) (ts label : String)
    (s : SummaryLine) (h : mkSummaryLine item ts label = Except.ok s) :
    s.avg = pyInt (1000 * item.avg_resp_time) ∧
    s.txnstddev = pyInt (1000 * item.stdev_resp_time) ∧
    s.ltavg = pyInt (1000 * item.avg_latency) ∧
    s.txnsum = pyInt (1000 * item.avg_resp_time) * (item.sample_count : Int) ∧
    (pctGet item.percentiles "0.0" = none → s.min = 0) ∧
    (∀ v, pctGet item.percentiles "0.0" = some v → s.min = pyInt (1000 * v)) ∧
    (pctGet item.percentiles "100.0" = none → s.max = 0) ∧
    (∀ v, pctGet item.percentiles "100.0" = some v → s.max = pyInt (1000 * v)) ∧
    (pctGet item.percentiles "90.0" = none → s.pct90 = 0) ∧
    (∀ v, pctGet item.percentiles "90.0" = some v → s.pct90 = pyInt v) ∧
    (pctGet item.percentiles "95.0" = none → s.pct95 = 0) ∧
    (∀ v, pctGet item.percentiles "95.0" = some v → s.pct95 = pyInt v) ∧
    (pctGet item.percentiles "99.0" = none → s.pct99 = 0) ∧
    (∀ v, pctGet item.percentiles "99.0" = some v → s.pct99 = pyInt v) := by
  unfold mkSummaryLine at h
  split at h
  · exact absurd h (by simp)
  · simp only [Except.ok.injEq] at h
    subst h
    refine ⟨rfl, rfl, rfl, rfl, ?_, ?_, ?_, ?_, ?_, ?_, ?_, ?_, ?_, ?_⟩ <;>
      first
        | (intro hp; simp [hp, multi])
        | (intro v hp; simp [hp, multi])

/-- Witness for C7: the spec's asymmetry scenario — avg 0.5021 s renders as
502 while percentile 95.0 = 0.502 s renders as 0. -/
theorem summary_scaling_fields_witness :
    s7.avg = pyInt (1000 * item7.avg_resp_time) ∧
    s7.pct95 = pyInt (251/500 : ℚ) ∧ s7.avg = 502 ∧ s7.pct95 = 0 := by
  obtain ⟨h1, _, _, _, _, _, _, _, _, _, _, h12, _, _⟩ :=
    summary_scaling_fields item7 "1000" "Login" s7 mkSummaryLine_item7
  exact ⟨h1, h12 (251/500) rfl, rfl, rfl⟩

/-- C10: entries of a data point's per-label map filed under the empty
(falsy) label are skipped entirely — no summary, internal-concurrency or
error line — so a data point holding only the empty label contributes zero
output lines. -/
theorem empty_label_skipped :
    (∀ (ts : String) (k : KPISetRec) (rest : List (String × KPISetRec)),
      currentStrings ts (("", k) :: rest) = currentStrings ts rest) ∧
    (∀ (t : Int) (k : KPISetRec),
      getKpiBody [{ ts := t, current := [("", k)] }] = Except.ok []) :=
  ⟨fun _ _ _ => rfl, fun _ _ => rfl⟩

/-! ### Helper lemmas about the uploader -/

/-- `__send_kpi_data` when the first POST gets an HTTP response. -/
lemma sendKpiData_status (cfg : InfluxConfig) (tr : Transport) (n0 : Nat)
    (data u : String) (c : Int) (hu : cfg.influx_url = some u)
    (htr : tr n0 = PostOutcome.status c) :
    sendKpiData cfg tr n0 data =
      ({ attempts := [data], sleeps := [], warned := false,
         droppedLogged := false, outcome := Except.ok () }, n0 + 1) := by
  unfold sendKpiData
  rw [hu, htr]

/-- `__send_kpi_data` when the first POST raises outside `ConnectionError`:
the exception escapes with no retry. -/
lemma sendKpiData_raise (cfg : InfluxConfig) (tr : Transport) (n0 : Nat)
    (data u e : String) (hu : cfg.influx_url = some u)
    (htr : tr n0 = PostOutcome.raiseOther e) :
    sendKpiData cfg tr n0 data =
      ({ attempts := [data], sleeps := [], warned := false,
         droppedLogged := false, outcome := Except.error e }, n0 + 1) := by
  unfold sendKpiData
  rw [hu, htr]

/-- `__send_kpi_data` when both POSTs raise `ConnectionError`: the payload
is dropped after one retry. -/
lemma sendKpiData_conn_conn (cfg : InfluxConfig) (tr : Transport) (n0 : Nat)
    (data u : String) (hu : cfg.influx_url = some u)
    (h1 : tr n0 = PostOutcome.connectionError)
    (h2 : tr (n0 + 1) = PostOutcome.connectionError) :
    sendKpiData cfg tr n0 data =
      ({ attempts := [data, data], sleeps := [cfg.resend_timeout],
         warned := true, droppedLogged := true, outcome := Except.ok () },
        n0 + 2) := by
  unfold sendKpiData
  rw [hu, h1, h2]

/-- `__send_kpi_data` when the first POST raises `ConnectionError` and the
retry gets an HTTP response. -/
lemma sendKpiData_conn_status (cfg : InfluxConfig) (tr : Transport) (n0 : Nat)
    (data u : String) (c : Int) (hu : cfg.influx_url = some u)
    (h1 : tr n0 = PostOutcome.connectionError)
    (h2 : tr (n0 + 1) = PostOutcome.status c) :
    sendKpiData cfg tr n0 data =
      ({ attempts := [data, data], sleeps := [cfg.resend_timeout],
         warned := true, droppedLogged := false, outcome := Except.ok () },
        n0 + 2) := by
  unfold sendKpiData
  rw [hu, h1, h2]

/-- `check` before the interval has elapsed: complete no-op. -/
lemma check_no_dispatch (cfg : InfluxConfig) (tr : Transport) (n0 : Nat)
    (st : UploaderState) (now : ℚ)
    (h : ¬ st.last_dispatch < now - cfg.send_interval) :
    check cfg tr n0 st now = (st, n0, none) := by
  unfold check
  rw [if_neg h]

/-- `check` after the interval but with nothing to send: `last_dispatch` is
still reset. -/
lemma check_skip_send (cfg : InfluxConfig) (tr : Transport) (n0 : Nat)
    (st : UploaderState) (now : ℚ)
    (h1 : st.last_dispatch < now - cfg.send_interval)
    (h2 : ¬ (st.send_data = true ∧ st.kpi_buffer ≠ [])) :
    check cfg tr n0 st now = ({ st with last_dispatch := now }, n0, none) := by
  unfold check
  rw [if_pos h1, if_neg h2]

/-- `check` on a qualifying tick whose send returns normally. -/
lemma check_send_ok (cfg : InfluxConfig) (tr : Transport) (n0 : Nat)
    (st : UploaderState) (now : ℚ)
    (h1 : st.last_dispatch < now - cfg.send_interval)
    (h2 : st.send_data = true) (h3 : st.kpi_buffer ≠ [])
    (h4 : (sendData cfg tr n0 st.kpi_buffer).1.outcome = Except.ok ()) :
    check cfg tr n0 st now =
      ({ st with last_dispatch := now, kpi_buffer := [] },
        (sendData cfg tr n0 st.kpi_buffer).2,
        some (sendData cfg tr n0 st.kpi_buffer).1) := by
  unfold check
  rw [if_pos h1, if_pos (And.intro h2 h3), h4]

/-- `check` on a qualifying tick whose send raises: the buffer survives. -/
lemma check_send_err (cfg : InfluxConfig) (tr : Transport) (n0 : Nat)
    (st : UploaderState) (now : ℚ) (e : String)
    (h1 : st.last_dispatch < now - cfg.send_interval)
    (h2 : st.send_data = true) (h3 : st.kpi_buffer ≠ [])
    (h4 : (sendData cfg tr n0 st.kpi_buffer).1.outcome = Except.error e) :
    check cfg tr n0 st now =
      ({ st with last_dispatch := now },
        (sendData cfg tr n0 st.kpi_buffer).2,
        some (sendData cfg tr n0 st.kpi_buffer).1) := by
  unfold check
  rw [if_pos h1, if_pos (And.intro h2 h3), h4]

/-- `__send_data` over an empty buffer posts the empty string. -/
lemma sendData_nil (cfg : InfluxConfig) (tr : Transport) (n0 : Nat) :
    sendData cfg tr n0 [] = sendKpiData cfg tr n0 "" := rfl

/-! ### Claims about the uploader -/

/-- C2 counterexample: at the exact interval boundary (`now - last = interval`,
buffer non-empty) the code sends nothing and changes nothing, contradicting
the claim's `≥`; and a qualifying tick with an empty buffer still resets
`lastFlushTime`, contradicting the claim's no-change clause. -/
theorem check_boundary_and_empty_tick :
    check cfg1 trOk 0
        { kpi_buffer := [dp1], last_dispatch := 5, send_data := true } 15 =
      ({ kpi_buffer := [dp1], last_dispatch := 5, send_data := true }, 0, none) ∧
    check cfg1 trOk 0
        { kpi_buffer := [], last_dispatch := 0, send_data := true } 11 =
      ({ kpi_buffer := [], last_dispatch := 11, send_data := true }, 0, none) := by
  constructor
  · exact check_no_dispatch cfg1 trOk 0 _ 15 (by norm_num [cfg1])
  · exact check_skip_send cfg1 trOk 0 _ 11 (by norm_num [cfg1]) (by simp)

/-- C2 (amended): a tick transmits iff `send_data` holds, the buffer is
non-empty and `last_dispatch < now - send_interval` (strict); whenever the
strict time condition holds `last_dispatch` is set to `now`, buffer or not;
a non-qualifying tick changes nothing; on a transmitting tick the snapshot
sent is the whole pre-tick buffer and the buffer is cleared exactly when the
send routine returns normally. -/
theorem check_flush_characterization (cfg : InfluxConfig) (tr : Transport)
    (n0 : Nat) (st : UploaderState) (now : ℚ) :
    ((check cfg tr n0 st now).2.2.isSome = true ↔
      (st.last_dispatch < now - cfg.send_interval ∧ st.send_data = true ∧
        st.kpi_buffer ≠ [])) ∧
    (st.last_dispatch < now - cfg.send_interval →
      (check cfg tr n0 st now).1.last_dispatch = now) ∧
    (¬ st.last_dispatch < now - cfg.send_interval →
      check cfg tr n0 st now = (st, n0, none)) ∧
    (st.last_dispatch < now - cfg.send_interval → st.send_data = true →
      st.kpi_buffer ≠ [] →
      (check cfg tr n0 st now).2.2 = some (sendData cfg tr n0 st.kpi_buffer).1 ∧
      ((sendData cfg tr n0 st.kpi_buffer).1.outcome = Except.ok () →
        (check cfg tr n0 st now).1.kpi_buffer = [])) := by
  by_cases h1 : st.last_dispatch < now - cfg.send_interval
  · by_cases h2 : st.send_data = true
    · by_cases h3 : st.kpi_buffer = []
      · rw [check_skip_send cfg tr n0 st now h1 (by simp [h3])]
        simp [h1, h2, h3]
      · rcases ho : (sendData cfg tr n0 st.kpi_buffer).1.outcome with e | u
        · rw [check_send_err cfg tr n0 st now e h1 h2 h3 ho]
          simp [h1, h2, h3, ho]
        · cases u
          rw [check_send_ok cfg tr n0 st now h1 h2 h3 ho]
          simp [h1, h2, h3]
    · rw [check_skip_send cfg tr n0 st now h1 (by simp [h2])]
      simp [h1, h2]
  · rw [check_no_dispatch cfg tr n0 st now h1]
    simp [h1]

/-- Witness for C2 (amended): a strictly-qualifying empty-buffer tick resets
the clock; a boundary tick is a no-op. -/
theorem check_flush_characterization_witness :
    (check cfg1 trOk 0
      { kpi_buffer := [], last_dispatch := 0, send_data := true } 11).1.last_dispatch
        = 11 ∧
    check cfg1 trOk 0
        { kpi_buffer := [], last_dispatch := 5, send_data := true } 15 =
      ({ kpi_buffer := [], last_dispatch := 5, send_data := true }, 0, none) :=
  ⟨(check_flush_characterization cfg1 trOk 0
      { kpi_buffer := [], last_dispatch := 0, send_data := true } 11).2.1
      (by norm_num [cfg1]),
    (check_flush_characterization cfg1 trOk 0
      { kpi_buffer := [], last_dispatch := 5, send_data := true } 15).2.2.1
      (by norm_num [cfg1])⟩

/-- C3 counterexample: `post_process` on an empty buffer still performs a
POST — one network attempt whose body is the empty string. -/
theorem post_process_empty_buffer_posts :
    post_process cfg1 trOk 0
        { kpi_buffer := [], last_dispatch := 0, send_data := true } =
      ({ kpi_buffer := [], last_dispatch := 0, send_data := true }, 1,
        some { attempts := [""], sleeps := [], warned := false,
               droppedLogged := false, outcome := Except.ok () }) := rfl

/-- C3 (amended): `post_process` with an empty pending buffer still performs
a network call — a POST whose request body is the empty string (handled like
any payload, e.g. accepted when the server answers). -/
theorem post_process_empty_buffer_sends_empty_body (cfg : InfluxConfig)
    (tr : Transport) (n0 : Nat) (st : UploaderState) (u : String) (c : Int)
    (hu : cfg.influx_url = some u) (hs : st.send_data = true)
    (hb : st.kpi_buffer = []) (htr : tr n0 = PostOutcome.status c) :
    post_process cfg tr n0 st = (st, n0 + 1,
      some { attempts := [""], sleeps := [], warned := false,
             droppedLogged := false, outcome := Except.ok () }) := by
  obtain ⟨buf, ld, sd⟩ := st
  dsimp only at hs hb
  subst hs
  subst hb
  unfold post_process
  rw [if_pos rfl]
  rw [show sendData cfg tr n0
      ({ kpi_buffer := [], last_dispatch := ld, send_data := true } :
        UploaderState).kpi_buffer = sendKpiData cfg tr n0 "" from rfl]
  rw [sendKpiData_status cfg tr n0 "" u c hu htr]

/-- Witness for C3 (amended). -/
theorem post_process_empty_buffer_sends_empty_body_witness :
    post_process cfg1 trOk 0
        { kpi_buffer := [], last_dispatch := 3, send_data := true } =
      ({ kpi_buffer := [], last_dispatch := 3, send_data := true }, 1,
        some { attempts := [""], sleeps := [], warned := false,
               droppedLogged := false, outcome := Except.ok () }) :=
  post_process_empty_buffer_sends_empty_body cfg1 trOk 0 _ _ 204 rfl rfl rfl rfl

/-- C4 counterexample: a start marker whose POST hits a connectivity fault
IS retried — two attempts and a `resend_timeout` sleep, not the single
attempt the claim states. -/
theorem startup_marker_retried :
    (startup cfg1 trConnFail 0 1700000000000).1.attempts.length = 2 ∧
    (startup cfg1 trConnFail 0 1700000000000).1.sleeps = [2] :=
  ⟨rfl, rfl⟩

/-- C4 (amended): the start/end markers go through the same send routine as
data: one POST, and on a connectivity fault exactly one retry after
`resend_timeout`; the marker is lost (with the dropped-data error log) only
when both attempts fail, and no exception escapes in that case. -/
theorem marker_send_retry_policy (cfg : InfluxConfig) (tr : Transport)
    (n0 : Nat) (ms : Int) (app u : String)
    (happ : cfg.influx_application = some app)
    (hu : cfg.influx_url = some u) :
    (∀ c, tr n0 = PostOutcome.status c →
      startup cfg tr n0 ms =
        ({ attempts := [startupLine app ms], sleeps := [], warned := false,
           droppedLogged := false, outcome := Except.ok () }, n0 + 1)) ∧
    (tr n0 = PostOutcome.connectionError →
      tr (n0 + 1) = PostOutcome.connectionError →
      startup cfg tr n0 ms =
        ({ attempts := [startupLine app ms, startupLine app ms],
           sleeps := [cfg.resend_timeout], warned := true,
           droppedLogged := true, outcome := Except.ok () }, n0 + 2)) ∧
    (∀ c, tr n0 = PostOutcome.status c →
      shutdown cfg tr n0 ms =
        ({ attempts := [shutdownLine app ms], sleeps := [], warned := false,
           droppedLogged := false, outcome := Except.ok () }, n0 + 1)) ∧
    (tr n0 = PostOutcome.connectionError →
      tr (n0 + 1) = PostOutcome.connectionError →
      shutdown cfg tr n0 ms =
        ({ attempts := [shutdownLine app ms, shutdownLine app ms],
           sleeps := [cfg.resend_timeout], warned := true,
           droppedLogged := true, outcome := Except.ok () }, n0 + 2)) := by
  refine ⟨?_, ?_, ?_, ?_⟩
  · intro c htr
    unfold startup
    rw [happ]
    exact sendKpiData_status cfg tr n0 _ u c hu htr
  · intro ht1 ht2
    unfold startup
    rw [happ]
    exact sendKpiData_conn_conn cfg tr n0 _ u hu ht1 ht2
  · intro c htr
    unfold shutdown
    rw [happ]
    exact sendKpiData_status cfg tr n0 _ u c hu htr
  · intro ht1 ht2
    unfold shutdown
    rw [happ]
    exact sendKpiData_conn_conn cfg tr n0 _ u hu ht1 ht2

/-- Witness for C4 (amended): one attempt on success, two on a double
connectivity fault. -/
theorem marker_send_retry_policy_witness :
    startup cfg1 trOk 0 1700000000000 =
      ({ attempts := [startupLine "influx_testing" 1700000000000], sleeps := [],
         warned := false, droppedLogged := false, outcome := Except.ok () }, 1) ∧
    startup cfg1 trConnFail 0 1700000000000 =
      ({ attempts := [startupLine "influx_testing" 1700000000000,
                      startupLine "influx_testing" 1700000000000],
         sleeps := [2], warned := true, droppedLogged := true,
         outcome := Except.ok () }, 2) :=
  ⟨(marker_send_retry_policy cfg1 trOk 0 1700000000000 _ _ rfl rfl).1 204 rfl,
    (marker_send_retry_policy cfg1 trConnFail 0 1700000000000 _ _ rfl rfl).2.1
      rfl rfl⟩

/-- C5: the source declares `NETWORK_PROBLEMS` (which includes `ReadTimeout`)
but its except clauses catch only `ConnectionError`, so a read timeout gets
no retry and the exception escapes `__send_kpi_data` and `check` to the
caller — the buffer is not even cleared.  This contradicts the claim that
every non-protocol failure class is retried and contained. -/
theorem read_timeout_escapes_uncaught :
    "ReadTimeout" ∈ NETWORK_PROBLEMS ∧
    sendKpiData cfg1 trReadTimeout 0 "payload" =
      ({ attempts := ["payload"], sleeps := [], warned := false,
         droppedLogged := false, outcome := Except.error "ReadTimeout" }, 1) ∧
    (check cfg1 trReadTimeout 0
        { kpi_buffer := [dp1], last_dispatch := 0, send_data := true } 11).1 =
      { kpi_buffer := [dp1], last_dispatch := 11, send_data := true } ∧
    ((check cfg1 trReadTimeout 0
        { kpi_buffer := [dp1], last_dispatch := 0, send_data := true } 11).2.2.map
      SendResult.outcome) = some (Except.error "ReadTimeout") := by
  have hc := check_send_err cfg1 trReadTimeout 0
    { kpi_buffer := [dp1], last_dispatch := 0, send_data := true } 11
    "ReadTimeout" (by norm_num [cfg1]) rfl (by simp) rfl
  refine ⟨by decide, rfl, ?_, ?_⟩
  · rw [hc]
  · rw [hc]
    rfl

/-- C6 counterexample: with the required `measurement` option missing (but
URL and application present), `startup` does not fail — it performs a
network POST of the start marker and returns normally. -/
theorem missing_measurement_startup_posts :
    startup cfgNoMeas trOk 0 1700000000000 =
      ({ attempts := [startupLine "influx_testing" 1700000000000], sleeps := [],
         warned := false, droppedLogged := false, outcome := Except.ok () },
        1) := rfl

/-- C6 (amended): a missing `application` makes `startup` raise `TypeError`
and a present `application` with a missing URL makes it raise
`MissingSchema`, both before any network attempt; but a missing
`measurement` is not detected at startup — the start marker is still posted
and `startup` succeeds (the `TypeError` only surfaces later, when buffered
data is turned into a request body). -/
theorem startup_missing_config_behavior (cfg : InfluxConfig) (tr : Transport)
    (n0 : Nat) (ms : Int) :
    (cfg.influx_application = none →
      startup cfg tr n0 ms = (errResult "TypeError", n0)) ∧
    (∀ a, cfg.influx_application = some a → cfg.influx_url = none →
      startup cfg tr n0 ms = (errResult "MissingSchema", n0)) ∧
    (∀ a u c, cfg.influx_application = some a → cfg.influx_url = some u →
      cfg.influx_measurement = none → tr n0 = PostOutcome.status c →
      startup cfg tr n0 ms =
        ({ attempts := [startupLine a ms], sleeps := [], warned := false,
           droppedLogged := false, outcome := Except.ok () }, n0 + 1)) ∧
    (∀ item rest, cfg.influx_measurement = none →
      buildRequestBody cfg.influx_measurement cfg.influx_application
        (item :: rest) = Except.error "TypeError") := by
  refine ⟨?_, ?_, ?_, ?_⟩
  · intro happ
    unfold startup
    rw [happ]
  · intro a happ hu
    unfold startup
    rw [happ]
    show sendKpiData cfg tr n0 (startupLine a ms) = (errResult "MissingSchema", n0)
    unfold sendKpiData
    rw [hu]
  · intro a u c happ hu _ htr
    unfold startup
    rw [happ]
    exact sendKpiData_status cfg tr n0 _ u c hu htr
  · intro item rest hm
    unfold buildRequestBody
    rw [hm]

/-- Witness for C6 (amended) on the three deficient configurations. -/
theorem startup_missing_config_behavior_witness :
    startup cfgNoApp trOk 0 5 = (errResult "TypeError", 0) ∧
    startup cfgNoUrl trOk 0 5 = (errResult "MissingSchema", 0) ∧
    startup cfgNoMeas trOk 0 5 =
      ({ attempts := [startupLine "influx_testing" 5], sleeps := [],
         warned := false, droppedLogged := false, outcome := Except.ok () }, 1) ∧
    buildRequestBody cfgNoMeas.influx_measurement cfgNoMeas.influx_application
      ["x"] = Except.error "TypeError" :=
  ⟨(startup_missing_config_behavior cfgNoApp trOk 0 5).1 rfl,
    (startup_missing_config_behavior cfgNoUrl trOk 0 5).2.1 "influx_testing"
      rfl rfl,
    (startup_missing_config_behavior cfgNoMeas trOk 0 5).2.2.1
      "influx_testing" _ 204 rfl rfl rfl rfl,
    (startup_missing_config_behavior cfgNoMeas trOk 0 5).2.2.2 "x" [] rfl⟩

/-- C8: a transmission whose first POST raises `ConnectionError` is retried
exactly once with the same payload after a `resend_timeout` sleep; a second
`ConnectionError` drops the payload permanently with the error-level log —
two attempts total, normal return — and a tick whose send returns normally
clears the buffer, so the dropped records are not requeued. -/
theorem conn_fault_retry_then_drop (cfg : InfluxConfig) (tr : Transport)
    (n0 : Nat) (data u : String) (hu : cfg.influx_url = some u)
    (h1 : tr n0 = PostOutcome.connectionError) :
    (tr (n0 + 1) = PostOutcome.connectionError →
      sendKpiData cfg tr n0 data =
        ({ attempts := [data, data], sleeps := [cfg.resend_timeout],
           warned := true, droppedLogged := true, outcome := Except.ok () },
          n0 + 2)) ∧
    (∀ c, tr (n0 + 1) = PostOutcome.status c →
      sendKpiData cfg tr n0 data =
        ({ attempts := [data, data], sleeps := [cfg.resend_timeout],
           warned := true, droppedLogged := false, outcome := Except.ok () },
          n0 + 2)) ∧
    (∀ (st : UploaderState) (now : ℚ),
      st.last_dispatch < now - cfg.send_interval → st.send_data = true →
      st.kpi_buffer ≠ [] →
      (sendData cfg tr n0 st.kpi_buffer).1.outcome = Except.ok () →
      (check cfg tr n0 st now).1.kpi_buffer = []) := by
  refine ⟨?_, ?_, ?_⟩
  · intro h2
    exact sendKpiData_conn_conn cfg tr n0 data u hu h1 h2
  · intro c h2
    exact sendKpiData_conn_status cfg tr n0 data u c hu h1 h2
  · intro st now hn hs hb ho
    rw [check_send_ok cfg tr n0 st now hn hs hb ho]

/-- Witness for C8: a transport failing twice — two identical attempts, one
sleep of 2 seconds, the drop logged, and the tick still ends with an empty
buffer. -/
theorem conn_fault_retry_then_drop_witness :
    sendKpiData cfg1 trConnFail 0 "payload" =
      ({ attempts := ["payload", "payload"], sleeps := [2], warned := true,
         droppedLogged := true, outcome := Except.ok () }, 2) ∧
    (check cfg1 trConnFail 0
      { kpi_buffer := [dp1], last_dispatch := 0, send_data := true } 11).1.kpi_buffer
        = [] :=
  ⟨(conn_fault_retry_then_drop cfg1 trConnFail 0 "payload" _ rfl rfl).1 rfl,
    (conn_fault_retry_then_drop cfg1 trConnFail 0 "payload" _ rfl rfl).2.2
      { kpi_buffer := [dp1], last_dispatch := 0, send_data := true } 11
      (by norm_num [cfg1]) rfl (by simp) rfl⟩

end BztInflux
